import Mathlib

/-!
Shallow embedding of the `nord` browser dashboard (`src/web/Nord.jsx`) and,
where the repository ships only the web observer, models of the session
engine taken from the specification.  Definitions mirror the source; the
theorems settle the frozen claims about the dashboard protocol, its state
updates and the engine invariants.
-/

/-- The `VPN` status enumeration from `src/web/Nord.jsx` (`Object.freeze`d
numeric constants). -/
def VPN.disconnected : Nat := 1

/-- `VPN.connecting` from `src/web/Nord.jsx`. -/
def VPN.connecting : Nat := 2

/-- `VPN.connected` from `src/web/Nord.jsx`. -/
def VPN.connected : Nat := 3

/-- `VPN.disconnecting` from `src/web/Nord.jsx`. -/
def VPN.disconnecting : Nat := 4

/-- `VPN.error` from `src/web/Nord.jsx`. -/
def VPN.error : Nat := 5

/-- The component state of the `Nord` React component
(`src/web/Nord.jsx`, constructor).  JS `null`/`undefined` is `none`.
`error_message` is absent from the constructor (undefined), modelled as
`none` initially. -/
structure DashState where
  enabled : Bool
  loading : Bool
  status : Nat
  country : Option String
  host : Option String
  error_message : Option String
  viewportWidth : Option Nat
  deriving DecidableEq, Repr

/-- Initial component state set by the constructor of `Nord`
(`src/web/Nord.jsx` lines 46-63). -/
def initState : DashState :=
  { enabled := false
  , loading := true
  , status := VPN.disconnected
  , country := none
  , host := none
  , error_message := none
  , viewportWidth := none }

/-- A parsed engine-to-client JSON message as consumed by `handleData`:
a `state` string plus the optional fields the handler reads. -/
structure EngineMsg where
  state : String
  host : Option String
  country : Option String
  message : Option String
  deriving DecidableEq, Repr

/-- `handleData` from `src/web/Nord.jsx` lines 94-127: a switch on
`msg.state` producing the `setState` update merged into the component
state; no `default` branch, so unknown states leave the state unchanged. -/
def handleData (st : DashState) (msg : EngineMsg) : DashState :=
  match msg.state with
  | "connected" => { st with status := VPN.connected, host := msg.host }
  | "disconnected" => { st with status := VPN.disconnected }
  | "connecting" =>
      { st with status := VPN.connecting, country := msg.country, host := none }
  | "disconnecting" => { st with status := VPN.disconnecting }
  | "error" => { st with status := VPN.error, error_message := msg.message }
  | _ => st

/-- Process a sequence of engine messages from the initial component
state, in arrival order. -/
def runDash (msgs : List EngineMsg) : DashState :=
  msgs.foldl handleData initState

/-- The `properties` of a clicked map geography, with the fields the
dashboard reads (`NAME`, `ISO_A2`). -/
structure GeoProperties where
  NAME : String
  ISO_A2 : String
  deriving DecidableEq, Repr

/-- A map geography as passed to the `onClick` handler. -/
structure Geography where
  properties : GeoProperties
  deriving DecidableEq, Repr

/-- A client-to-engine JSON object, modelled as its ordered list of
string key/value pairs exactly as built by `JSON.stringify`. -/
def ClientMsg := List (String × String)
  deriving DecidableEq

/-- `connect` from `src/web/Nord.jsx` lines 129-141: the `setState` call
is commented out in the source, so the handler only sends
`{method: 'connect', country: country_info.ISO_A2}` and leaves the
component state unchanged. -/
def Nord.connect (st : DashState) (geography : Geography) :
    DashState × List ClientMsg :=
  (st, [[("method", "connect"), ("country", geography.properties.ISO_A2)]])

/-- `disconnect` from `src/web/Nord.jsx` lines 143-149: the `setState`
call is commented out in the source, so the handler only sends
`{method: 'disconnect'}` and leaves the component state unchanged. -/
def Nord.disconnect (st : DashState) : DashState × List ClientMsg :=
  (st, [[("method", "disconnect")]])

/-- The events the dashboard reacts to: a click on a country geography
(wired to `connect`), a click on the disconnect button (wired to
`disconnect`), and an incoming WebSocket message (wired to
`handleData`). -/
inductive UIAction where
  | clickCountry (g : Geography)
  | clickDisconnect
  | receive (m : EngineMsg)
  deriving DecidableEq, Repr

/-- One dashboard step: the new component state together with the list
of messages sent over the channel during the step. -/
def dashStep (st : DashState) (a : UIAction) : DashState × List ClientMsg :=
  match a with
  | .clickCountry g => Nord.connect st g
  | .clickDisconnect => Nord.disconnect st
  | .receive m => (handleData st m, [])

/-- What the `VPNStatus` banner renders (`src/web/Nord.jsx` lines
200-245): the cases of the `content` variable. -/
inductive StatusContent where
  | empty
  | connectingTo (country : Option String)
  | connectedTo (host : Option String) (disconnectEnabled : Bool)
  | backendError (message : Option String)
  | lostConnection
  deriving DecidableEq, Repr

/-- `VPNStatus` from `src/web/Nord.jsx` lines 200-245: the `switch` on
`connection.status` chooses a color and content; afterwards, if the
channel is neither enabled nor loading, both are overridden by the
lost-connection notice. -/
def VPNStatus (conn : DashState) : String × StatusContent :=
  let base : String × StatusContent :=
    if conn.status = VPN.connecting then
      ("yellow", .connectingTo conn.country)
    else if conn.status = VPN.connected ∨ conn.status = VPN.disconnecting
        ∨ conn.status = VPN.disconnected then
      ("green", .connectedTo conn.host (conn.status == VPN.connected))
    else if conn.status = VPN.error then
      ("red", .backendError conn.error_message)
    else
      ("", .empty)
  if !conn.enabled && !conn.loading then ("red", .lostConnection) else base

/-- The older dashboard's component state (`src/unnamed/part_004`,
constructor): no `error_message` or `viewportWidth` field. -/
structure OldDashState where
  enabled : Bool
  loading : Bool
  status : Nat
  country : Option String
  host : Option String
  deriving DecidableEq, Repr

/-- `handleData` of the older dashboard (`src/unnamed/part_004` lines
73-83): only the `connected` and `disconnected` states are handled. -/
def oldHandleData (st : OldDashState) (msg : EngineMsg) : OldDashState :=
  match msg.state with
  | "connected" => { st with status := VPN.connected, host := msg.host }
  | "disconnected" => { st with status := VPN.disconnected }
  | _ => st

/-- Modelled from the spec: the SessionManager states of section 4.2
(`Disconnected`, `Connecting`, `Connected`, `Disconnecting`, `Error`);
the engine implementation is not part of the repository sources here,
only its web observer is. -/
inductive SState where
  | disconnected
  | connecting
  | connected
  | disconnecting
  | errorState
  deriving DecidableEq, Repr

/-- Modelled from the spec: the transition triggers of section 4.2 —
external `connect`/`disconnect` calls, the ProcessSupervisor signals
(`processStarted`, `processFailed`, `processCrashed`, confirmed stop)
and the explicit `reset`. -/
inductive SEvent where
  | connectCall
  | disconnectCall
  | processStarted
  | processFailed
  | stopConfirmed
  | processCrashed
  | reset
  deriving DecidableEq, Repr

/-- Modelled from the spec: the engine state relevant to the tunnel
invariant — the SessionManager state together with the number of
running TunnelProcesses supervised by ProcessSupervisor. -/
structure EngineState where
  s : SState
  running : Nat
  deriving DecidableEq, Repr

/-- Modelled from the spec: the serialized transition function of
section 4.2.  `connect` is accepted only from `Disconnected` or `Error`
(otherwise rejected with `AlreadyActive`, no state change);
`processStarted` moves `Connecting` to `Connected` with the tunnel
process now running; `processFailed` releases partial resources and
enters `Error`; `disconnect` from `Connected` (or cancelling an
in-flight connect from `Connecting`) enters `Disconnecting`; a
confirmed stop enters `Disconnected` with the process gone;
`processCrashed` from `Connected` enters `Error` with the process
exited; `reset` returns `Error` to `Disconnected`.  Events that do not
apply in the current state are rejected without a state change. -/
def stepEngine (e : EngineState) (ev : SEvent) : EngineState :=
  match ev, e.s with
  | .connectCall, .disconnected => { e with s := .connecting }
  | .connectCall, .errorState => { e with s := .connecting }
  | .processStarted, .connecting => { s := .connected, running := e.running + 1 }
  | .processFailed, .connecting => { e with s := .errorState }
  | .disconnectCall, .connected => { e with s := .disconnecting }
  | .disconnectCall, .connecting => { e with s := .disconnecting }
  | .stopConfirmed, .disconnecting => { s := .disconnected, running := e.running - 1 }
  | .processCrashed, .connected => { s := .errorState, running := e.running - 1 }
  | .reset, .errorState => { e with s := .disconnected }
  | _, _ => e

/-- Modelled from the spec: the engine starts `Disconnected` with no
tunnel process running. -/
def initEngine : EngineState := { s := .disconnected, running := 0 }

/-- Run the engine on a sequence of events from its initial state. -/
def runEngine (evs : List SEvent) : EngineState :=
  evs.foldl stepEngine initEngine

/-- Modelled from the spec: a `Host` of the data model (section 3) —
identifier, country code, load metric (lower is better) and
last-refreshed timestamp; the HostDirectory implementation is not part
of the repository sources here. -/
structure Host where
  id : String
  country : String
  load : Nat
  lastRefreshed : Nat
  deriving DecidableEq, Repr

/-- Modelled from the spec: candidate `a` beats candidate `b` for
ranking — strictly lower load, or equal load and more recently
refreshed (section 4.1 tie-breaking). -/
def BetterHost (a b : Host) : Prop :=
  a.load < b.load ∨ (a.load = b.load ∧ b.lastRefreshed < a.lastRefreshed)

instance (a b : Host) : Decidable (BetterHost a b) := by
  unfold BetterHost; exact inferInstance

/-- Keep the best candidate seen so far, replacing it only when the new
candidate is strictly better. -/
def pickBetter (acc : Option Host) (h : Host) : Option Host :=
  match acc with
  | none => some h
  | some b => if BetterHost h b then some h else some b

/-- Modelled from the spec: `rank(countryCode)` of HostDirectory
(section 4.1) over a cached host set — filters cached hosts by country
and returns the one with the lowest load metric, breaking ties by
most-recently-refreshed. -/
def rank (cache : List Host) (countryCode : String) : Option Host :=
  (cache.filter (fun h => h.country == countryCode)).foldl pickBetter none

/-- The inductive invariant for the engine model: at most one tunnel
process runs, and none runs outside `Connected`/`Disconnecting`. -/
def EngineInv (e : EngineState) : Prop :=
  e.running ≤ 1 ∧ (e.s = .connected ∨ e.s = .disconnecting ∨ e.running = 0)

lemma engineInv_step (e : EngineState) (ev : SEvent) (h : EngineInv e) :
    EngineInv (stepEngine e ev) := by
  obtain ⟨s, n⟩ := e
  cases ev <;> cases s <;>
    simp_all [stepEngine, EngineInv]

lemma engineInv_foldl (evs : List SEvent) (e : EngineState) (h : EngineInv e) :
    EngineInv (evs.foldl stepEngine e) := by
  induction evs generalizing e with
  | nil => exact h
  | cons ev rest ih => exact ih _ (engineInv_step e ev h)

/-- C1: for every sequence of connect/disconnect calls (and supervisor
signals) handled by the engine model, at most one TunnelProcess is
running at any instant, i.e. after any event prefix. -/
theorem engine_at_most_one_tunnel (evs : List SEvent) :
    (runEngine evs).running ≤ 1 :=
  (engineInv_foldl evs initEngine (by simp [EngineInv, initEngine])).1

lemma connecting_host_step (st : DashState) (msg : EngineMsg)
    (h : st.status = VPN.connecting → st.host = none) :
    (handleData st msg).status = VPN.connecting → (handleData st msg).host = none := by
  unfold handleData
  split <;>
    simp_all [VPN.connecting, VPN.connected, VPN.disconnected,
      VPN.disconnecting, VPN.error]

lemma connecting_host_foldl (msgs : List EngineMsg) (st : DashState)
    (h : st.status = VPN.connecting → st.host = none) :
    (msgs.foldl handleData st).status = VPN.connecting →
      (msgs.foldl handleData st).host = none := by
  induction msgs generalizing st with
  | nil => exact h
  | cons m ms ih => exact ih _ (connecting_host_step st m h)

lemma host_none_step (st : DashState) (msg : EngineMsg)
    (h : st.host = none) (hm : msg.state ≠ "connected") :
    (handleData st msg).host = none := by
  unfold handleData
  split <;> simp_all

lemma host_none_foldl (msgs : List EngineMsg) (st : DashState)
    (h : st.host = none) (hm : ∀ m ∈ msgs, m.state ≠ "connected") :
    (msgs.foldl handleData st).host = none := by
  induction msgs generalizing st with
  | nil => exact h
  | cons m ms ih =>
      exact ih _ (host_none_step st m h (hm m (by simp)))
        (fun x hx => hm x (by simp [hx]))

/-- C4 counterexample: after the engine reports `connected` to host
`nl123` and then `disconnected`, the dashboard status is `disconnected`
yet the host field still holds `nl123` — `handleData`'s `disconnected`
branch does not clear the host, refuting the claim that the host is
null whenever the status is `disconnected` or `error`. -/
theorem host_persists_after_disconnected :
    (runDash [⟨"connected", some "nl123", none, none⟩,
              ⟨"disconnected", none, none, none⟩]).status = VPN.disconnected ∧
    (runDash [⟨"connected", some "nl123", none, none⟩,
              ⟨"disconnected", none, none, none⟩]).host = some "nl123" := by
  constructor <;> rfl

/-- C4 (amended): the dashboard's host field is null initially and
whenever the status is `connecting`, and it can become non-null only
through a `connected` message; `disconnected` and `error` messages
leave the host unchanged, so the host may remain non-null in those
statuses. -/
theorem dash_host_amended_invariant (msgs : List EngineMsg) :
    ((runDash msgs).status = VPN.connecting → (runDash msgs).host = none) ∧
    ((∀ m ∈ msgs, m.state ≠ "connected") → (runDash msgs).host = none) :=
  ⟨connecting_host_foldl msgs initState (fun _ => rfl),
   fun hm => host_none_foldl msgs initState rfl hm⟩

/-- Witness for the amended C4 invariant at a concrete message
sequence. -/
theorem dash_host_amended_invariant_witness :
    (runDash [⟨"connecting", none, some "NL", none⟩]).host = none ∧
    (runDash [⟨"disconnecting", none, none, none⟩]).host = none :=
  ⟨(dash_host_amended_invariant [⟨"connecting", none, some "NL", none⟩]).1
      (by decide),
   (dash_host_amended_invariant [⟨"disconnecting", none, none, none⟩]).2
      (by decide)⟩

/-- C2: clicking a country sends exactly
`{method: "connect", country: <ISO_A2 code>}`, invoking disconnect
sends exactly `{method: "disconnect"}`, and every message the
dashboard ever sends over the channel has one of these two shapes. -/
theorem dashboard_sends_only_documented_intents
    (st : DashState) (g : Geography) :
    (dashStep st (.clickCountry g)).2 =
      [[("method", "connect"), ("country", g.properties.ISO_A2)]] ∧
    (dashStep st .clickDisconnect).2 = [[("method", "disconnect")]] ∧
    ∀ (a : UIAction) (msg : ClientMsg), msg ∈ (dashStep st a).2 →
      (∃ c, msg = [("method", "connect"), ("country", c)]) ∨
      msg = [("method", "disconnect")] := by
  refine ⟨rfl, rfl, ?_⟩
  intro a msg hm
  cases a with
  | clickCountry g2 =>
      simp only [dashStep, Nord.connect, List.mem_singleton] at hm
      exact Or.inl ⟨g2.properties.ISO_A2, hm⟩
  | clickDisconnect =>
      simp only [dashStep, Nord.disconnect, List.mem_singleton] at hm
      exact Or.inr hm
  | receive m => simp [dashStep] at hm

/-- Witness for C2 at a concrete state, geography and sent message. -/
theorem dashboard_sends_only_documented_intents_witness :
    (∃ c, ([("method", "connect"), ("country", "US")] : ClientMsg) =
        [("method", "connect"), ("country", c)]) ∨
    ([("method", "connect"), ("country", "US")] : ClientMsg) =
        [("method", "disconnect")] :=
  (dashboard_sends_only_documented_intents initState
      ⟨⟨"United States", "US"⟩⟩).2.2 (.clickCountry ⟨⟨"United States", "US"⟩⟩)
    [("method", "connect"), ("country", "US")] (by decide)

/-- C3: `handleData` maps each of the five documented engine messages
to the documented state update — `connecting` sets the status, records
the country and clears the host; `connected` sets the status and
records the host; `disconnecting` and `disconnected` set only the
status; `error` sets the status and records the message. -/
theorem handleData_maps_engine_states
    (st : DashState) (hv cv mv : Option String) :
    handleData st ⟨"connecting", hv, cv, mv⟩ =
      { st with status := VPN.connecting, country := cv, host := none } ∧
    handleData st ⟨"connected", hv, cv, mv⟩ =
      { st with status := VPN.connected, host := hv } ∧
    handleData st ⟨"disconnecting", hv, cv, mv⟩ =
      { st with status := VPN.disconnecting } ∧
    handleData st ⟨"disconnected", hv, cv, mv⟩ =
      { st with status := VPN.disconnected } ∧
    handleData st ⟨"error", hv, cv, mv⟩ =
      { st with status := VPN.error, error_message := mv } :=
  ⟨rfl, rfl, rfl, rfl, rfl⟩

/-- C5: the dashboard is a pure observer — `connect` and `disconnect`
leave the component state unchanged (they only send an intent), and
any dashboard step that changes the state is the processing of a
received engine message by `handleData`. -/
theorem dashboard_pure_observer (st : DashState) :
    (∀ g, (dashStep st (.clickCountry g)).1 = st) ∧
    (dashStep st .clickDisconnect).1 = st ∧
    ∀ a : UIAction, (dashStep st a).1 = st ∨
      ∃ m, a = .receive m ∧ (dashStep st a).1 = handleData st m := by
  refine ⟨fun g => rfl, rfl, ?_⟩
  intro a
  cases a with
  | clickCountry g => exact Or.inl rfl
  | clickDisconnect => exact Or.inl rfl
  | receive m => exact Or.inr ⟨m, rfl, rfl⟩

/-- A component state whose WebSocket channel is open: `enabled` and
not `loading`, as set by the `onopen` callback. -/
def stOnline : DashState := { initState with enabled := true, loading := false }

/-- C6: on `{state: "error", message}` the dashboard enters the error
status, records the message, renders the error banner (while the
channel is open), and a subsequent map click still sends the
`{method: "connect", country}` intent over the channel. -/
theorem error_state_render_and_reconnect
    (st : DashState) (m : String) (hv cv : Option String) (g : Geography)
    (he : st.enabled = true) (hl : st.loading = false) :
    (handleData st ⟨"error", hv, cv, some m⟩).status = VPN.error ∧
    (handleData st ⟨"error", hv, cv, some m⟩).error_message = some m ∧
    VPNStatus (handleData st ⟨"error", hv, cv, some m⟩) =
      ("red", .backendError (some m)) ∧
    (dashStep (handleData st ⟨"error", hv, cv, some m⟩)
        (.clickCountry g)).2 =
      [[("method", "connect"), ("country", g.properties.ISO_A2)]] := by
  refine ⟨rfl, rfl, ?_, rfl⟩
  simp [VPNStatus, handleData, he, VPN.connecting, VPN.connected,
    VPN.disconnecting, VPN.disconnected, VPN.error]

/-- Witness for C6 at a concrete open-channel state and message. -/
theorem error_state_render_and_reconnect_witness :
    VPNStatus (handleData stOnline ⟨"error", none, none, some "boom"⟩) =
      ("red", .backendError (some "boom")) :=
  (error_state_render_and_reconnect stOnline "boom" none none
      ⟨⟨"France", "FR"⟩⟩ rfl rfl).2.2.1

/-- C8: a received message whose `state` is none of the five handled
strings falls through the `switch` without a `setState`: the component
state is unchanged. -/
theorem handleData_unknown_state_noop (st : DashState) (msg : EngineMsg)
    (h1 : msg.state ≠ "connected") (h2 : msg.state ≠ "disconnected")
    (h3 : msg.state ≠ "connecting") (h4 : msg.state ≠ "disconnecting")
    (h5 : msg.state ≠ "error") :
    handleData st msg = st := by
  unfold handleData
  split <;> simp_all

/-- Witness for C8 at a concrete unrecognized message. -/
theorem handleData_unknown_state_noop_witness :
    handleData initState ⟨"bogus", none, none, none⟩ = initState :=
  handleData_unknown_state_noop initState ⟨"bogus", none, none, none⟩
    (by decide) (by decide) (by decide) (by decide) (by decide)

/-- C9: whenever the channel has errored or closed (`enabled` false and
`loading` false), the banner renders the lost-connection notice in
place of any session-status content, whatever the status value. -/
theorem lost_connection_banner_override (conn : DashState)
    (he : conn.enabled = false) (hl : conn.loading = false) :
    VPNStatus conn = ("red", .lostConnection) := by
  simp [VPNStatus, he, hl]

/-- Witness for C9 at a concrete closed-channel state. -/
theorem lost_connection_banner_override_witness :
    VPNStatus { initState with loading := false } = ("red", .lostConnection) :=
  lost_connection_banner_override { initState with loading := false } rfl rfl

/-- C10: on `connected` and `disconnected` messages, the older
dashboard's handler (`src/unnamed/part_004`) and the current one
compute the same update of the session fields (status, country,
host), starting from states that agree on those fields. -/
theorem old_new_handleData_agree (st : DashState) (ost : OldDashState)
    (msg : EngineMsg)
    (hs : msg.state = "connected" ∨ msg.state = "disconnected")
    (h1 : st.status = ost.status) (h2 : st.country = ost.country)
    (h3 : st.host = ost.host) :
    (handleData st msg).status = (oldHandleData ost msg).status ∧
    (handleData st msg).country = (oldHandleData ost msg).country ∧
    (handleData st msg).host = (oldHandleData ost msg).host := by
  obtain ⟨s, mh, mc, mm⟩ := msg
  simp only at hs
  rcases hs with hs | hs <;> subst hs <;>
    simp_all [handleData, oldHandleData]

/-- Witness for C10 at a concrete `connected` message and agreeing
initial states. -/
theorem old_new_handleData_agree_witness :
    (handleData initState ⟨"connected", some "us893", none, none⟩).host =
      (oldHandleData ⟨false, true, VPN.disconnected, none, none⟩
        ⟨"connected", some "us893", none, none⟩).host :=
  (old_new_handleData_agree initState
      ⟨false, true, VPN.disconnected, none, none⟩
      ⟨"connected", some "us893", none, none⟩
      (Or.inl rfl) rfl rfl rfl).2.2

lemma notBetter_self (a : Host) : ¬ BetterHost a a := by
  unfold BetterHost; omega

lemma better_trans (a b c : Host)
    (h1 : BetterHost a b) (h2 : BetterHost b c) : BetterHost a c := by
  unfold BetterHost at *; omega

lemma notBetter_trans (a b c : Host)
    (h1 : ¬ BetterHost a b) (h2 : ¬ BetterHost b c) : ¬ BetterHost a c := by
  unfold BetterHost at *; omega

lemma foldl_pickBetter_spec (l : List Host) :
    ∀ (acc : Option Host) (h : Host),
      l.foldl pickBetter acc = some h →
      (h ∈ l ∨ acc = some h) ∧
      (∀ hh ∈ l, ¬ BetterHost hh h) ∧
      (∀ b, acc = some b → ¬ BetterHost b h) := by
  induction l with
  | nil =>
      intro acc h hf
      simp only [List.foldl_nil] at hf
      refine ⟨Or.inr hf, by simp, ?_⟩
      intro b hb
      rw [hf] at hb
      injection hb with hb
      exact hb ▸ notBetter_self h
  | cons hd tl ih =>
      intro acc h hf
      rw [List.foldl_cons] at hf
      obtain ⟨hmem, hall, hacc⟩ := ih (pickBetter acc hd) h hf
      have hhd : ¬ BetterHost hd h := by
        cases acc with
        | none => exact hacc hd rfl
        | some b =>
            by_cases hb : BetterHost hd b
            · exact hacc hd (by simp [pickBetter, hb])
            · exact notBetter_trans hd b h hb (hacc b (by simp [pickBetter, hb]))
      refine ⟨?_, ?_, ?_⟩
      · rcases hmem with hm | hm
        · exact Or.inl (List.mem_cons_of_mem hd hm)
        · cases acc with
          | none =>
              simp only [pickBetter, Option.some.injEq] at hm
              exact Or.inl (hm ▸ List.mem_cons_self hd tl)
          | some b =>
              by_cases hb : BetterHost hd b
              · simp only [pickBetter, hb, if_true, Option.some.injEq] at hm
                exact Or.inl (hm ▸ List.mem_cons_self hd tl)
              · simp only [pickBetter, hb, if_false, Option.some.injEq] at hm
                exact Or.inr (by rw [hm])
      · intro hh hhmem
        rcases List.mem_cons.mp hhmem with he | ht
        · exact he ▸ hhd
        · exact hall hh ht
      · intro b hb
        subst hb
        by_cases hbb : BetterHost hd b
        · intro hcon
          exact hhd (better_trans hd b h hbb hcon)
        · exact hacc b (by simp [pickBetter, hbb])

/-- Three cached US hosts with loads 30, 10 and 20. -/
def usHostA : Host := ⟨"us1", "US", 30, 100⟩

/-- The cached US host with the lowest load (10). -/
def usHostB : Host := ⟨"us2", "US", 10, 200⟩

/-- A cached US host with load 20. -/
def usHostC : Host := ⟨"us3", "US", 20, 300⟩

/-- A cached host set for country `US` with loads `[30, 10, 20]`. -/
def usCache : List Host := [usHostA, usHostB, usHostC]

/-- C7: on the cached US host set with loads `[30, 10, 20]`,
`rank "US"` returns the host with load 10; in general, any host
returned by `rank` is a cached host of the requested country whose
load is minimal among the cached hosts of that country, ties broken
towards the most recently refreshed host. -/
theorem rank_lowest_load :
    rank usCache "US" = some usHostB ∧
    ∀ (cache : List Host) (cc : String) (h : Host),
      rank cache cc = some h →
      h ∈ cache ∧ h.country = cc ∧
      ∀ hh ∈ cache, hh.country = cc →
        h.load < hh.load ∨
          (h.load = hh.load ∧ hh.lastRefreshed ≤ h.lastRefreshed) := by
  constructor
  · decide
  · intro cache cc h hf
    unfold rank at hf
    obtain ⟨hmem, hall, -⟩ := foldl_pickBetter_spec _ _ _ hf
    rcases hmem with hm | hm
    · obtain ⟨hc1, hc2⟩ := List.mem_filter.mp hm
      refine ⟨hc1, by simpa using hc2, ?_⟩
      intro hh hhm hhc
      have hhf : hh ∈ cache.filter (fun x => x.country == cc) :=
        List.mem_filter.mpr ⟨hhm, by simp [hhc]⟩
      have hnb := hall hh hhf
      unfold BetterHost at hnb
      omega
    · exact Option.noConfusion hm

/-- Witness for C7: instantiating the minimality clause of the ranking
theorem at the concrete US cache. -/
theorem rank_lowest_load_witness :
    usHostB.load < usHostA.load ∨
      (usHostB.load = usHostA.load ∧
        usHostA.lastRefreshed ≤ usHostB.lastRefreshed) :=
  (rank_lowest_load.2 usCache "US" usHostB rank_lowest_load.1).2.2 usHostA
    (by decide) (by decide)
